import Mathlib

/-!
Shallow embedding of the greenlight movie data-access layer
(internal/data/movies.go, internal/data/models.go) together with the
validator and query-filter components it depends on.  Machine integers
(int32, int64) are modelled as unbounded Int; the claims under study do
not involve overflow.  The database is modelled as an explicit state
value threaded through each store operation, and each SQL statement is
modelled by its effect on that state.
-/

/-- A movie record, mirroring the Movie struct of internal/data/movies.go.
Go field types int64/int32 are modelled as Int; the creation timestamp is
an abstract Nat tick; the Genres slice is a list of strings (the Go nil
slice and the empty slice are both the empty list here). -/
structure Movie where
  id : Int
  createdAt : Nat
  title : String
  year : Int
  runtime : Int
  genres : List String
  version : Int
deriving DecidableEq

/-- The movies table of the database, plus the bigserial sequence that
assigns primary keys: `nextId` is the value the next INSERT will take. -/
structure MovieDB where
  rows : List Movie
  nextId : Int
deriving DecidableEq

/-- The two domain errors of internal/data/models.go
(ErrRecordNotFound, ErrEditConflict). -/
inductive StoreErr where
  | recordNotFound
  | editConflict
deriving DecidableEq

/-- Wellformedness of the database state: the id sequence is at least 1,
every stored row has an id in [1, nextId), and ids are unique (primary
key).  These invariants come from the PostgreSQL schema (bigserial
primary key starting at 1). -/
def MovieDB.WF (db : MovieDB) : Prop :=
  1 ≤ db.nextId ∧ (∀ r ∈ db.rows, 1 ≤ r.id ∧ r.id < db.nextId) ∧
    (db.rows.map Movie.id).Nodup

instance (db : MovieDB) : Decidable db.WF := by
  unfold MovieDB.WF; infer_instance

namespace MovieModel

/-- MovieModel.Insert: INSERT INTO movies (title, year, runtime, genres)
RETURNING id, created_at, version.  The system assigns the next sequence
id, the current timestamp `now`, and version 1 (schema default), and the
RETURNING clause writes them back into the passed movie. -/
def insert (db : MovieDB) (movie : Movie) (now : Nat) : Movie × MovieDB :=
  let inserted : Movie :=
    { movie with id := db.nextId, createdAt := now, version := 1 }
  (inserted, { rows := db.rows ++ [inserted], nextId := db.nextId + 1 })

/-- MovieModel.Get: short-circuits to ErrRecordNotFound for id < 1, else
SELECT ... WHERE id = $1; zero rows maps to ErrRecordNotFound. -/
def get (db : MovieDB) (id : Int) : Except StoreErr Movie :=
  if id < 1 then .error .recordNotFound
  else
    match db.rows.find? (fun r => decide (r.id = id)) with
    | none => .error .recordNotFound
    | some r => .ok r

/-- MovieModel.Update: UPDATE movies SET ..., version = version + 1
WHERE id = $5 AND version = $6 RETURNING version.  Zero matched rows
surface as ErrEditConflict; on success the new version is scanned back
into the passed movie (its only mutated field).  The returned Movie is
the state of the passed entity after the call. -/
def update (db : MovieDB) (movie : Movie) :
    Except StoreErr Unit × Movie × MovieDB :=
  if db.rows.any (fun r => decide (r.id = movie.id ∧ r.version = movie.version)) then
    let newRows := db.rows.map (fun r =>
      if r.id = movie.id ∧ r.version = movie.version then
        { r with title := movie.title, year := movie.year,
                 runtime := movie.runtime, genres := movie.genres,
                 version := r.version + 1 }
      else r)
    (.ok (), { movie with version := movie.version + 1 },
      { db with rows := newRows })
  else
    (.error .editConflict, movie, db)

/-- MovieModel.Delete: short-circuits to ErrRecordNotFound for id < 1,
else DELETE FROM movies WHERE id = $1; zero affected rows maps to
ErrRecordNotFound. -/
def delete (db : MovieDB) (id : Int) : Except StoreErr Unit × MovieDB :=
  if id < 1 then (.error .recordNotFound, db)
  else
    let remaining := db.rows.filter (fun r => decide (r.id ≠ id))
    let rowsAffected := db.rows.length - remaining.length
    if rowsAffected = 0 then (.error .recordNotFound, db)
    else (.ok (), { db with rows := remaining })

end MovieModel

/-- Association lookup of the first message recorded for a field, the
model of reading Go map `v.Errors[field]` (insertion keeps at most one
entry per field, so the first entry is the entry). -/
def findMsg (errors : List (String × String)) (field : String) : Option String :=
  (errors.find? (fun e => decide (e.1 = field))).map (fun e => e.2)

/-- Modelled from the spec: the Validator component (the validator
package is not part of the provided sources).  It accumulates named
validation failures; the Errors map is modelled as an association list
in insertion order. -/
structure Validator where
  errors : List (String × String)
deriving DecidableEq

/-- Modelled from the spec: validator.New returns a Validator with an
empty error map. -/
def Validator.new : Validator := ⟨[]⟩

/-- Modelled from the spec: check(condition, field, message) records
`message` under `field` when `condition` is false, only if no message is
already recorded for that field (first failure per field wins). -/
def Validator.check (v : Validator) (condition : Bool) (field message : String) :
    Validator :=
  if condition then v
  else if (findMsg v.errors field).isSome then v
  else ⟨v.errors ++ [(field, message)]⟩

/-- Modelled from the spec: valid() is true iff no field has a recorded
message. -/
def Validator.valid (v : Validator) : Bool := v.errors.isEmpty

/-- Modelled from the spec: unique(values) is true iff no value repeats
(case-sensitive exact match); a free function of the validator package. -/
def validator.Unique (values : List String) : Bool := decide values.Nodup

/-- ValidateMovie of internal/data/movies.go: the fixed sequence of
eleven checks.  The Go upper bound `int32(time.Now().Year())` is the
parameter `currentYear`. -/
def ValidateMovie (currentYear : Int) (v : Validator) (movie : Movie) : Validator :=
  let v := v.check (decide (movie.title ≠ "")) "title" "must be provided"
  let v := v.check (decide (movie.title.utf8ByteSize ≤ 500)) "title"
    "must not be more than 500 bytes long"
  let v := v.check (decide (movie.year ≠ 0)) "year" "must be provided"
  let v := v.check (decide (movie.year ≥ 1888)) "year" "must be greater than 1888"
  let v := v.check (decide (movie.year ≤ currentYear)) "year" "must not be in the future"
  let v := v.check (decide (movie.runtime ≠ 0)) "runtime" "must be provided"
  let v := v.check (decide (movie.runtime > 0)) "runtime" "must be a positive integer"
  let v := v.check (decide (movie.genres ≠ [])) "genres" "must be provided"
  let v := v.check (decide (movie.genres.length ≥ 1)) "genres"
    "must contain at least 1 genre"
  let v := v.check (decide (movie.genres.length ≤ 5)) "genres"
    "must not contain more than 5 genres"
  v.check (validator.Unique movie.genres) "genres" "must not contain duplicate values"

/-- Modelled from the spec: pagination/sort parameters of the query
filter component (its source file is not part of the provided sources). -/
structure Filters where
  page : Int
  pageSize : Int
  sort : String
  sortSafelist : List String
deriving DecidableEq

/-- Modelled from the spec: sortColumn() strips the leading `-` from the
sort value and yields the storage column, failing fatally (modelled as
none) when the value is not on the safe-list. -/
def Filters.sortColumn (f : Filters) : Option String :=
  if f.sort ∈ f.sortSafelist then
    some (if f.sort.startsWith "-" then f.sort.drop 1 else f.sort)
  else none

/-- Modelled from the spec: sortDirection() is DESC iff the sort value
has a leading `-`, ASC otherwise. -/
def Filters.sortDirection (f : Filters) : String :=
  if f.sort.startsWith "-" then "DESC" else "ASC"

/-- Modelled from the spec: limit() returns pageSize. -/
def Filters.limit (f : Filters) : Int := f.pageSize

/-- Modelled from the spec: offset() returns (page-1)*pageSize. -/
def Filters.offset (f : Filters) : Int := (f.page - 1) * f.pageSize

/-- Modelled from the spec: the pagination metadata derived from the
windowed total count; all fields zero when totalRecords is zero. -/
structure Metadata where
  currentPage : Int
  pageSize : Int
  firstPage : Int
  lastPage : Int
  totalRecords : Int
deriving DecidableEq

/-- Modelled from the spec: the all-zero Metadata value. -/
def Metadata.empty : Metadata := ⟨0, 0, 0, 0, 0⟩

/-- Modelled from the spec: calculateMetadata yields the all-zero value
when totalRecords is zero, otherwise the current page, page size, first
page 1, last page the ceiling of totalRecords/pageSize, and the total. -/
def calculateMetadata (totalRecords page pageSize : Int) : Metadata :=
  if totalRecords = 0 then Metadata.empty
  else ⟨page, pageSize, 1, (totalRecords + pageSize - 1) / pageSize, totalRecords⟩

/-- A value of one sortable column of the movies table; Int-valued and
text-valued columns never meet for a fixed column name. -/
inductive SortKey where
  | int (n : Int)
  | str (s : String)
deriving DecidableEq

/-- Order on column values, the model of SQL comparison inside one
column (the cross-constructor cases are unreachable for a fixed column). -/
def SortKey.le : SortKey → SortKey → Prop
  | .int a, .int b => a ≤ b
  | .str a, .str b => a ≤ b
  | .int _, .str _ => True
  | .str _, .int _ => False

instance : DecidableRel SortKey.le := fun a b => by
  cases a <;> cases b <;> simp only [SortKey.le] <;> infer_instance

/-- The value row `m` has in sortable column `col` of the movies table.
Validated filters only ever resolve to a real column name; the default
case is unreachable then. -/
def Movie.colKey (col : String) (m : Movie) : SortKey :=
  match col with
  | "id" => .int m.id
  | "title" => .str m.title
  | "year" => .int m.year
  | "runtime" => .int m.runtime
  | "created_at" => .int (m.createdAt : Int)
  | "version" => .int m.version
  | _ => .int 0

/-- Row order realised by `ORDER BY col dir, id ASC`: rows with equal
column values are ordered by id ascending; otherwise by the column
value, reversed when dir is DESC. -/
def movieLE (col dir : String) (a b : Movie) : Prop :=
  if Movie.colKey col a = Movie.colKey col b then a.id ≤ b.id
  else if dir = "DESC" then SortKey.le (Movie.colKey col b) (Movie.colKey col a)
  else SortKey.le (Movie.colKey col a) (Movie.colKey col b)

instance (col dir : String) : DecidableRel (movieLE col dir) := fun a b => by
  unfold movieLE; infer_instance

/-- The WHERE clause of GetAll: the full-text title condition
(`to_tsvector ... @@ plainto_tsquery ... OR $1 = ''`), whose text-search
semantics is the parameter `titleMatch`, and the genre containment
condition (`genres @> $2 OR $2 = '{}'`). -/
def movieMatches (titleMatch : String → String → Bool)
    (title : String) (genres : List String) (m : Movie) : Bool :=
  (titleMatch title m.title || decide (title = "")) &&
  (genres.all (fun g => m.genres.contains g) || decide (genres = []))

namespace MovieModel

/-- The ordered result set of the GetAll query before LIMIT and OFFSET:
the rows passing the WHERE clause, ordered by the resolved sort column
and direction with the secondary id ASC tie-break. -/
def getAllRows (titleMatch : String → String → Bool) (db : MovieDB)
    (title : String) (genres : List String) (col dir : String) : List Movie :=
  List.insertionSort (movieLE col dir)
    (db.rows.filter (movieMatches titleMatch title genres))

/-- MovieModel.GetAll: resolves the sort column (none models the fatal
safe-list failure), applies WHERE, ORDER BY, OFFSET and LIMIT, and takes
the windowed `count(*) OVER()` from the scanned rows — the count stays 0
when the page is empty, since it is read once per returned row. -/
def getAll (titleMatch : String → String → Bool) (db : MovieDB)
    (title : String) (genres : List String) (f : Filters) :
    Option (List Movie × Metadata) :=
  match f.sortColumn with
  | none => none
  | some col =>
    let full := getAllRows titleMatch db title genres col f.sortDirection
    let movies := (full.drop f.offset.toNat).take f.limit.toNat
    let totalRecords : Int := if movies.isEmpty then 0 else (full.length : Int)
    some (movies, calculateMetadata totalRecords f.page f.pageSize)

end MovieModel

/-- Helper: a Get call never yields an edit conflict. -/
theorem get_ne_editConflict (db : MovieDB) (id : Int) :
    MovieModel.get db id ≠ .error .editConflict := by
  unfold MovieModel.get
  split
  · simp
  · split <;> simp

/-- Helper: a Delete call never yields an edit conflict. -/
theorem delete_ne_editConflict (db : MovieDB) (id : Int) :
    (MovieModel.delete db id).1 ≠ .error .editConflict := by
  unfold MovieModel.delete
  split
  · simp
  · dsimp only
    split <;> simp

/-- Helper: an Update call never yields a not-found error. -/
theorem update_ne_recordNotFound (db : MovieDB) (m : Movie) :
    (MovieModel.update db m).1 ≠ .error .recordNotFound := by
  unfold MovieModel.update
  split <;> simp

/-- C5: for every id below 1, Get and Delete short-circuit to
ErrRecordNotFound, and their outcome is independent of the database
state — the guard fires before any statement is issued. -/
theorem c5_guard_short_circuit (id : Int) (h : id < 1) :
    (∀ db : MovieDB, MovieModel.get db id = .error .recordNotFound) ∧
    (∀ db : MovieDB, MovieModel.delete db id = (.error .recordNotFound, db)) ∧
    (∀ db db' : MovieDB, MovieModel.get db id = MovieModel.get db' id) ∧
    (∀ db db' : MovieDB,
      (MovieModel.delete db id).1 = (MovieModel.delete db' id).1) := by
  refine ⟨fun db => ?_, fun db => ?_, fun db db' => ?_, fun db db' => ?_⟩ <;>
    simp [MovieModel.get, MovieModel.delete, h]

/-- Witness for C5 at id 0 and id -5 on a concrete database. -/
theorem c5_guard_short_circuit_witness :
    MovieModel.get ⟨[], 1⟩ 0 = .error .recordNotFound ∧
    MovieModel.delete ⟨[], 1⟩ 0 = (.error .recordNotFound, ⟨[], 1⟩) ∧
    MovieModel.get ⟨[], 1⟩ (-5) = .error .recordNotFound :=
  ⟨(c5_guard_short_circuit 0 (by decide)).1 ⟨[], 1⟩,
   (c5_guard_short_circuit 0 (by decide)).2.1 ⟨[], 1⟩,
   (c5_guard_short_circuit (-5) (by decide)).1 ⟨[], 1⟩⟩

/-- C1: zero matched rows map to ErrRecordNotFound for Get and Delete
(with id at least 1) and to ErrEditConflict for Update, and the two
errors are never produced in each other's place. -/
theorem c1_zero_rows_error_taxonomy :
    (∀ (db : MovieDB) (id : Int), 1 ≤ id → (∀ r ∈ db.rows, r.id ≠ id) →
      MovieModel.get db id = .error .recordNotFound ∧
      (MovieModel.delete db id).1 = .error .recordNotFound) ∧
    (∀ (db : MovieDB) (m : Movie),
      (∀ r ∈ db.rows, ¬(r.id = m.id ∧ r.version = m.version)) →
      (MovieModel.update db m).1 = .error .editConflict) ∧
    (∀ (db : MovieDB) (id : Int),
      MovieModel.get db id ≠ .error .editConflict ∧
      (MovieModel.delete db id).1 ≠ .error .editConflict) ∧
    (∀ (db : MovieDB) (m : Movie),
      (MovieModel.update db m).1 ≠ .error .recordNotFound) := by
  refine ⟨fun db id hge hnone => ⟨?_, ?_⟩, fun db m hnone => ?_,
    fun db id => ⟨get_ne_editConflict db id, delete_ne_editConflict db id⟩,
    fun db m => update_ne_recordNotFound db m⟩
  · have hfind : db.rows.find? (fun r => decide (r.id = id)) = none := by
      rw [List.find?_eq_none]
      intro r hr
      simpa using hnone r hr
    simp [MovieModel.get, hfind, show ¬id < 1 by omega]
  · have hfilter : (db.rows.filter (fun r => !decide (r.id = id))).length
        = db.rows.length := by
      rw [List.filter_length_eq_length]
      intro r hr
      simpa using hnone r hr
    simp [MovieModel.delete, hfilter, show ¬id < 1 by omega]
  · have hnone' : ¬∃ x ∈ db.rows, x.id = m.id ∧ x.version = m.version := by
      rintro ⟨x, hx, hq⟩
      exact hnone x hx hq
    simp [MovieModel.update, hnone']

/-- Witness for C1 on concrete databases where the target row is absent. -/
theorem c1_zero_rows_error_taxonomy_witness :
    MovieModel.get ⟨[⟨1, 0, "A", 2000, 100, ["d"], 1⟩], 2⟩ 7
        = .error .recordNotFound ∧
    (MovieModel.update ⟨[⟨1, 0, "A", 2000, 100, ["d"], 1⟩], 2⟩
        ⟨1, 0, "A", 2000, 100, ["d"], 3⟩).1 = .error .editConflict :=
  ⟨((c1_zero_rows_error_taxonomy.1 ⟨[⟨1, 0, "A", 2000, 100, ["d"], 1⟩], 2⟩ 7
      (by decide) (by decide)).1),
   (c1_zero_rows_error_taxonomy.2.1 ⟨[⟨1, 0, "A", 2000, 100, ["d"], 1⟩], 2⟩
      ⟨1, 0, "A", 2000, 100, ["d"], 3⟩ (by decide))⟩

/-- C10: Update has no lower-bound guard on id — for an entity id below
1 it runs the statement, matches no row (all stored ids are at least 1),
and yields ErrEditConflict, while Get and Delete short-circuit to
ErrRecordNotFound at the same id. -/
theorem c10_update_no_id_guard (db : MovieDB) (m : Movie)
    (hids : ∀ r ∈ db.rows, 1 ≤ r.id) (h : m.id < 1) :
    MovieModel.update db m = (.error .editConflict, m, db) ∧
    MovieModel.get db m.id = .error .recordNotFound ∧
    MovieModel.delete db m.id = (.error .recordNotFound, db) := by
  have hnone' : ¬∃ x ∈ db.rows, x.id = m.id ∧ x.version = m.version := by
    rintro ⟨x, hx, hq, -⟩
    have := hids x hx
    omega
  refine ⟨by simp [MovieModel.update, hnone'], ?_, ?_⟩ <;>
    simp [MovieModel.get, MovieModel.delete, h]

/-- Witness for C10 on a concrete one-row database and entity id 0. -/
theorem c10_update_no_id_guard_witness :
    MovieModel.update ⟨[⟨1, 0, "A", 2000, 100, ["d"], 1⟩], 2⟩
        ⟨0, 0, "B", 2001, 90, ["c"], 1⟩ =
      (.error .editConflict, ⟨0, 0, "B", 2001, 90, ["c"], 1⟩,
        ⟨[⟨1, 0, "A", 2000, 100, ["d"], 1⟩], 2⟩) :=
  (c10_update_no_id_guard ⟨[⟨1, 0, "A", 2000, 100, ["d"], 1⟩], 2⟩
    ⟨0, 0, "B", 2001, 90, ["c"], 1⟩ (by decide) (by decide)).1

/-- C9: on Update success the passed entity changes only in its version
field, which takes the store-assigned value; on any Update failure both
the entity and the database are left untouched. -/
theorem c9_update_frame (db : MovieDB) (m : Movie) :
    ((MovieModel.update db m).1 = .ok () →
      (MovieModel.update db m).2.1 = { m with version := m.version + 1 }) ∧
    ((MovieModel.update db m).1 ≠ .ok () →
      (MovieModel.update db m).2.1 = m ∧ (MovieModel.update db m).2.2 = db) := by
  unfold MovieModel.update
  split
  · exact ⟨fun _ => rfl, fun hne => absurd rfl hne⟩
  · exact ⟨fun hok => by simp at hok, fun _ => ⟨rfl, rfl⟩⟩

/-- Witness for C9: a succeeding update mutates only the version, and a
conflicting update leaves entity and database untouched. -/
theorem c9_update_frame_witness :
    (MovieModel.update ⟨[⟨1, 0, "A", 2000, 100, ["d"], 1⟩], 2⟩
        ⟨1, 0, "B", 2001, 90, ["c"], 1⟩).2.1 = ⟨1, 0, "B", 2001, 90, ["c"], 2⟩ ∧
    (MovieModel.update ⟨[⟨1, 0, "A", 2000, 100, ["d"], 1⟩], 2⟩
        ⟨1, 0, "B", 2001, 90, ["c"], 9⟩).2.1 = ⟨1, 0, "B", 2001, 90, ["c"], 9⟩ ∧
    (MovieModel.update ⟨[⟨1, 0, "A", 2000, 100, ["d"], 1⟩], 2⟩
        ⟨1, 0, "B", 2001, 90, ["c"], 9⟩).2.2 =
      ⟨[⟨1, 0, "A", 2000, 100, ["d"], 1⟩], 2⟩ :=
  ⟨(c9_update_frame ⟨[⟨1, 0, "A", 2000, 100, ["d"], 1⟩], 2⟩
      ⟨1, 0, "B", 2001, 90, ["c"], 1⟩).1 rfl,
   ((c9_update_frame ⟨[⟨1, 0, "A", 2000, 100, ["d"], 1⟩], 2⟩
      ⟨1, 0, "B", 2001, 90, ["c"], 9⟩).2 (fun h => Except.noConfusion h)).1,
   ((c9_update_frame ⟨[⟨1, 0, "A", 2000, 100, ["d"], 1⟩], 2⟩
      ⟨1, 0, "B", 2001, 90, ["c"], 9⟩).2 (fun h => Except.noConfusion h)).2⟩

/-- C2: when a matching row (same id and version n) exists, an Update
succeeds and advances both the entity version and the stored version to
n+1; an identical second Update against the resulting state — either
interleaving of the race, since each update is one atomic statement —
fails with ErrEditConflict and changes nothing, with no retry inside the
store. -/
theorem c2_concurrent_updates (db : MovieDB) (m : Movie)
    (hnodup : (db.rows.map Movie.id).Nodup)
    (hrow : ∃ r ∈ db.rows, r.id = m.id ∧ r.version = m.version) :
    (MovieModel.update db m).1 = .ok () ∧
    (MovieModel.update db m).2.1.version = m.version + 1 ∧
    (∀ r ∈ (MovieModel.update db m).2.2.rows,
      r.id = m.id → r.version = m.version + 1) ∧
    (∃ r ∈ (MovieModel.update db m).2.2.rows, r.id = m.id) ∧
    MovieModel.update (MovieModel.update db m).2.2 m =
      (.error .editConflict, m, (MovieModel.update db m).2.2) := by
  obtain ⟨r0, hr0, hid0, hver0⟩ := hrow
  have hex : ∃ x ∈ db.rows, x.id = m.id ∧ x.version = m.version :=
    ⟨r0, hr0, hid0, hver0⟩
  have hupd : MovieModel.update db m =
      (.ok (), { m with version := m.version + 1 },
        { db with rows := db.rows.map (fun r =>
          if r.id = m.id ∧ r.version = m.version then
            { r with title := m.title, year := m.year,
                     runtime := m.runtime, genres := m.genres,
                     version := r.version + 1 }
          else r) }) := by
    simp [MovieModel.update, hex]
  rw [hupd]
  refine ⟨rfl, rfl, ?_, ?_, ?_⟩
  · intro r hr hrid
    rcases List.mem_map.1 hr with ⟨s, hs, hsr⟩
    by_cases hmatch : s.id = m.id ∧ s.version = m.version
    · rw [if_pos hmatch] at hsr
      rw [← hsr]
      simp [hmatch.2]
    · rw [if_neg hmatch] at hsr
      subst hsr
      exfalso
      have : s = r0 := by
        refine List.inj_on_of_nodup_map hnodup hs hr0 ?_
        rw [hid0, hrid]
      exact hmatch ⟨hrid, by rw [this, hver0]⟩
  · refine ⟨_, List.mem_map_of_mem _ hr0, ?_⟩
    rw [if_pos ⟨hid0, hver0⟩]
    exact hid0
  · dsimp only
    have hany : (db.rows.map (fun r =>
        if r.id = m.id ∧ r.version = m.version then
          { r with title := m.title, year := m.year,
                   runtime := m.runtime, genres := m.genres,
                   version := r.version + 1 }
        else r)).any
        (fun r => decide (r.id = m.id ∧ r.version = m.version)) = false := by
      rw [List.any_eq_false]
      intro x hx
      rcases List.mem_map.1 hx with ⟨s, hs, hsx⟩
      by_cases hmatch : s.id = m.id ∧ s.version = m.version
      · obtain ⟨hi2, hv2⟩ := hmatch
        rw [if_pos ⟨hi2, hv2⟩] at hsx
        subst hsx
        simp only [decide_eq_true_eq]
        rintro ⟨-, hver⟩
        omega
      · rw [if_neg hmatch] at hsx
        subst hsx
        simpa using hmatch
    unfold MovieModel.update
    simp only [hany]
    simp

/-- Witness for C2 on a concrete one-row database at version 1. -/
theorem c2_concurrent_updates_witness :
    (MovieModel.update ⟨[⟨1, 0, "A", 2000, 100, ["d"], 1⟩], 2⟩
        ⟨1, 0, "B", 2001, 90, ["c"], 1⟩).1 = .ok () ∧
    (MovieModel.update ⟨[⟨1, 0, "A", 2000, 100, ["d"], 1⟩], 2⟩
        ⟨1, 0, "B", 2001, 90, ["c"], 1⟩).2.1.version = 2 ∧
    MovieModel.update
        (MovieModel.update ⟨[⟨1, 0, "A", 2000, 100, ["d"], 1⟩], 2⟩
          ⟨1, 0, "B", 2001, 90, ["c"], 1⟩).2.2
        ⟨1, 0, "B", 2001, 90, ["c"], 1⟩ =
      (.error .editConflict, ⟨1, 0, "B", 2001, 90, ["c"], 1⟩,
        (MovieModel.update ⟨[⟨1, 0, "A", 2000, 100, ["d"], 1⟩], 2⟩
          ⟨1, 0, "B", 2001, 90, ["c"], 1⟩).2.2) := by
  have h := c2_concurrent_updates ⟨[⟨1, 0, "A", 2000, 100, ["d"], 1⟩], 2⟩
    ⟨1, 0, "B", 2001, 90, ["c"], 1⟩ (by decide)
    ⟨⟨1, 0, "A", 2000, 100, ["d"], 1⟩, by decide, rfl, rfl⟩
  exact ⟨h.1, h.2.1, h.2.2.2.2⟩

/-- C4: on a wellformed database, inserting an entity and fetching by
the assigned id returns exactly the entity Insert produced, whose
user-supplied fields are unchanged and whose id, creation timestamp and
version are system-assigned, with version 1. -/
theorem c4_insert_get_roundtrip (db : MovieDB) (m : Movie) (now : Nat)
    (hwf : db.WF) :
    MovieModel.get (MovieModel.insert db m now).2
        (MovieModel.insert db m now).1.id = .ok (MovieModel.insert db m now).1 ∧
    (MovieModel.insert db m now).1.title = m.title ∧
    (MovieModel.insert db m now).1.year = m.year ∧
    (MovieModel.insert db m now).1.runtime = m.runtime ∧
    (MovieModel.insert db m now).1.genres = m.genres ∧
    (MovieModel.insert db m now).1.version = 1 ∧
    (MovieModel.insert db m now).1.createdAt = now := by
  obtain ⟨hnext, hrange, -⟩ := hwf
  refine ⟨?_, rfl, rfl, rfl, rfl, rfl, rfl⟩
  unfold MovieModel.insert MovieModel.get
  dsimp only
  rw [if_neg (by omega)]
  have hfind : db.rows.find? (fun r => decide (r.id = db.nextId)) = none := by
    rw [List.find?_eq_none]
    intro r hr
    have := (hrange r hr).2
    simp only [decide_eq_true_eq]
    omega
  rw [List.find?_append, hfind]
  simp

/-- Witness for C4: insert into a concrete one-row database and fetch
the new record back. -/
theorem c4_insert_get_roundtrip_witness :
    MovieModel.get
        (MovieModel.insert ⟨[⟨1, 5, "A", 2000, 100, ["d"], 3⟩], 2⟩
          ⟨0, 0, "Casablanca", 1942, 102, ["drama", "romance", "war"], 0⟩ 7).2
        (MovieModel.insert ⟨[⟨1, 5, "A", 2000, 100, ["d"], 3⟩], 2⟩
          ⟨0, 0, "Casablanca", 1942, 102, ["drama", "romance", "war"], 0⟩ 7).1.id =
      .ok (MovieModel.insert ⟨[⟨1, 5, "A", 2000, 100, ["d"], 3⟩], 2⟩
        ⟨0, 0, "Casablanca", 1942, 102, ["drama", "romance", "war"], 0⟩ 7).1 ∧
    (MovieModel.insert ⟨[⟨1, 5, "A", 2000, 100, ["d"], 3⟩], 2⟩
      ⟨0, 0, "Casablanca", 1942, 102, ["drama", "romance", "war"], 0⟩ 7).1.version = 1 :=
  ⟨(c4_insert_get_roundtrip ⟨[⟨1, 5, "A", 2000, 100, ["d"], 3⟩], 2⟩
      ⟨0, 0, "Casablanca", 1942, 102, ["drama", "romance", "war"], 0⟩ 7
      (by decide)).1,
   (c4_insert_get_roundtrip ⟨[⟨1, 5, "A", 2000, 100, ["d"], 3⟩], 2⟩
      ⟨0, 0, "Casablanca", 1942, 102, ["drama", "romance", "war"], 0⟩ 7
      (by decide)).2.2.2.2.2.1⟩

/-- Helper: the number of entries a validator holds for one field. -/
def countField (errors : List (String × String)) (field : String) : Nat :=
  (errors.filter (fun e => decide (e.1 = field))).length

/-- Helper: a check on a different field never touches the first message
recorded for this field. -/
theorem findMsg_check_ne (v : Validator) (c : Bool) (f m f' : String)
    (h : f ≠ f') :
    findMsg (v.check c f m).errors f' = findMsg v.errors f' := by
  unfold Validator.check
  split
  · rfl
  · split
    · rfl
    · unfold findMsg
      rw [List.find?_append]
      have : List.find? (fun e => decide (e.1 = f')) [(f, m)] = none := by
        simp [h]
      rw [this]
      simp

/-- Helper: a check on a different field never changes the number of
entries for this field. -/
theorem countField_check_ne (v : Validator) (c : Bool) (f m f' : String)
    (h : f ≠ f') :
    countField (v.check c f m).errors f' = countField v.errors f' := by
  unfold Validator.check
  split
  · rfl
  · split
    · rfl
    · unfold countField
      rw [List.filter_append]
      simp [h]

/-- Helper: a passing check leaves the validator untouched. -/
theorem check_true (v : Validator) (f m : String) : v.check true f m = v := rfl

/-- Helper: a failing check on a field with no recorded message appends
its message, making it the first (and counted) entry for that field. -/
theorem check_false_none (v : Validator) (f m : String)
    (h : findMsg v.errors f = none) :
    findMsg (v.check false f m).errors f = some m ∧
    countField (v.check false f m).errors f = countField v.errors f + 1 := by
  have hfind : List.find? (fun e => decide (e.1 = f)) v.errors = none := by
    unfold findMsg at h
    exact Option.map_eq_none.mp h
  unfold Validator.check
  rw [if_neg (by simp)]
  rw [if_neg (by rw [h]; simp)]
  constructor
  · unfold findMsg
    rw [List.find?_append, hfind]
    simp
  · unfold countField
    rw [List.filter_append]
    simp

/-- Helper: an already-recorded first message survives any later check. -/
theorem findMsg_check_preserved (v : Validator) (c : Bool) (f m f' x : String)
    (h : findMsg v.errors f' = some x) :
    findMsg (v.check c f m).errors f' = some x := by
  unfold Validator.check
  split
  · exact h
  · split
    · exact h
    · unfold findMsg at h ⊢
      rw [List.find?_append]
      rcases hfind : List.find? (fun e => decide (e.1 = f')) v.errors with - | e
      · rw [hfind] at h
        simp at h
      · rw [hfind] at h
        simp_all

/-- C7: for any field, a second failing check is suppressed — the first
recorded message wins — and in particular ValidateMovie on an entity
with year 0, which fails both the year-presence and the year-lower-bound
checks, records only the first year message. -/
theorem c7_first_failure_per_field :
    (∀ (v : Validator) (field m1 m2 : String),
      findMsg v.errors field = none →
      findMsg ((v.check false field m1).check false field m2).errors field
        = some m1) ∧
    (∀ (cy : Int) (m : Movie), m.year = 0 →
      findMsg (ValidateMovie cy Validator.new m).errors "year"
        = some "must be provided") := by
  constructor
  · intro v field m1 m2 h
    exact findMsg_check_preserved _ _ _ _ _ _ (check_false_none v field m1 h).1
  · intro cy m hy
    unfold ValidateMovie
    dsimp only
    have h2 : findMsg ((Validator.new.check (decide (m.title ≠ "")) "title"
        "must be provided").check (decide (m.title.utf8ByteSize ≤ 500)) "title"
        "must not be more than 500 bytes long").errors "year" = none := by
      rw [findMsg_check_ne _ _ _ _ _ (by decide),
        findMsg_check_ne _ _ _ _ _ (by decide)]
      rfl
    rw [show decide (m.year ≠ 0) = false by simp [hy]]
    have h3 := (check_false_none _ "year" "must be provided" h2).1
    exact findMsg_check_preserved _ _ _ _ _ _ (findMsg_check_preserved _ _ _ _ _ _
      (findMsg_check_preserved _ _ _ _ _ _ (findMsg_check_preserved _ _ _ _ _ _
      (findMsg_check_preserved _ _ _ _ _ _ (findMsg_check_preserved _ _ _ _ _ _
      (findMsg_check_preserved _ _ _ _ _ _ (findMsg_check_preserved _ _ _ _ _ _
      h3)))))))

/-- Witness for C7 on a concrete validator and a concrete year-0 movie. -/
theorem c7_first_failure_per_field_witness :
    findMsg (((Validator.new.check false "f" "one").check false "f" "two")).errors "f"
      = some "one" ∧
    findMsg (ValidateMovie 2026 Validator.new
      ⟨1, 0, "T", 0, 100, ["d"], 1⟩).errors "year" = some "must be provided" :=
  ⟨c7_first_failure_per_field.1 Validator.new "f" "one" "two" rfl,
   c7_first_failure_per_field.2 2026 ⟨1, 0, "T", 0, 100, ["d"], 1⟩ rfl⟩

/-- Helper: running the four genre checks of ValidateMovie over a
duplicate-bearing genre list of length at most 5, starting from a
validator with no genres entry, records exactly the duplicate message. -/
theorem genres_checks (v : Validator) (gs : List String)
    (hnone : findMsg v.errors "genres" = none)
    (hcount : countField v.errors "genres" = 0)
    (hdup : ¬gs.Nodup) (hle : gs.length ≤ 5) :
    findMsg ((((v.check (decide (gs ≠ [])) "genres" "must be provided").check
        (decide (gs.length ≥ 1)) "genres" "must contain at least 1 genre").check
        (decide (gs.length ≤ 5)) "genres" "must not contain more than 5 genres").check
        (validator.Unique gs) "genres" "must not contain duplicate values").errors
        "genres" = some "must not contain duplicate values" ∧
    countField ((((v.check (decide (gs ≠ [])) "genres" "must be provided").check
        (decide (gs.length ≥ 1)) "genres" "must contain at least 1 genre").check
        (decide (gs.length ≤ 5)) "genres" "must not contain more than 5 genres").check
        (validator.Unique gs) "genres" "must not contain duplicate values").errors
        "genres" = 1 := by
  have hne : gs ≠ [] := by
    rintro rfl
    exact hdup List.nodup_nil
  rw [show decide (gs ≠ []) = true from decide_eq_true hne,
    show decide (gs.length ≥ 1) = true from
      decide_eq_true (List.length_pos.mpr hne),
    show decide (gs.length ≤ 5) = true from decide_eq_true hle,
    check_true, check_true, check_true,
    show validator.Unique gs = false from decide_eq_false hdup]
  refine ⟨(check_false_none _ _ _ hnone).1, ?_⟩
  rw [(check_false_none _ _ _ hnone).2, hcount]

/-- C6 (amended): for every duplicate-bearing genre list, unique is
false; and whenever the list moreover has at most 5 entries,
ValidateMovie records exactly one genres message, the duplicate one.
With more than 5 entries the earlier count-bound check wins instead. -/
theorem c6_duplicate_genres (gs : List String) (hdup : ¬gs.Nodup) :
    validator.Unique gs = false ∧
    ∀ (cy : Int) (m : Movie), m.genres = gs → gs.length ≤ 5 →
      findMsg (ValidateMovie cy Validator.new m).errors "genres"
        = some "must not contain duplicate values" ∧
      countField (ValidateMovie cy Validator.new m).errors "genres" = 1 := by
  refine ⟨decide_eq_false hdup, ?_⟩
  intro cy m hgen hle
  unfold ValidateMovie
  dsimp only
  rw [hgen]
  refine genres_checks _ gs ?_ ?_ hdup hle
  · rw [findMsg_check_ne _ _ _ _ _ (by decide),
      findMsg_check_ne _ _ _ _ _ (by decide),
      findMsg_check_ne _ _ _ _ _ (by decide),
      findMsg_check_ne _ _ _ _ _ (by decide),
      findMsg_check_ne _ _ _ _ _ (by decide),
      findMsg_check_ne _ _ _ _ _ (by decide),
      findMsg_check_ne _ _ _ _ _ (by decide)]
    rfl
  · rw [countField_check_ne _ _ _ _ _ (by decide),
      countField_check_ne _ _ _ _ _ (by decide),
      countField_check_ne _ _ _ _ _ (by decide),
      countField_check_ne _ _ _ _ _ (by decide),
      countField_check_ne _ _ _ _ _ (by decide),
      countField_check_ne _ _ _ _ _ (by decide),
      countField_check_ne _ _ _ _ _ (by decide)]
    rfl

/-- Counterexample for C6 as stated: a six-element genre list with a
repeated element makes unique false, yet the recorded genres message is
the count-bound message, and no duplicate message is recorded at all. -/
theorem c6_duplicate_genres_counterexample :
    validator.Unique ["a", "a", "b", "c", "d", "e"] = false ∧
    findMsg (ValidateMovie 2026 Validator.new
        ⟨1, 0, "T", 2000, 100, ["a", "a", "b", "c", "d", "e"], 1⟩).errors "genres"
      = some "must not contain more than 5 genres" ∧
    ((ValidateMovie 2026 Validator.new
        ⟨1, 0, "T", 2000, 100, ["a", "a", "b", "c", "d", "e"], 1⟩).errors.filter
        (fun e => decide (e.2 = "must not contain duplicate values"))).length
      = 0 := by
  refine ⟨by decide, rfl, rfl⟩

/-- Witness for C6 on the concrete duplicate list of length two. -/
theorem c6_duplicate_genres_witness :
    validator.Unique ["a", "a"] = false ∧
    findMsg (ValidateMovie 2026 Validator.new
        ⟨1, 0, "T", 2000, 100, ["a", "a"], 1⟩).errors "genres"
      = some "must not contain duplicate values" ∧
    countField (ValidateMovie 2026 Validator.new
        ⟨1, 0, "T", 2000, 100, ["a", "a"], 1⟩).errors "genres" = 1 :=
  ⟨(c6_duplicate_genres ["a", "a"] (by decide)).1,
   ((c6_duplicate_genres ["a", "a"] (by decide)).2 2026
     ⟨1, 0, "T", 2000, 100, ["a", "a"], 1⟩ rfl (by decide)).1,
   ((c6_duplicate_genres ["a", "a"] (by decide)).2 2026
     ⟨1, 0, "T", 2000, 100, ["a", "a"], 1⟩ rfl (by decide)).2⟩

/-- C8: a GetAll whose filters match no stored row succeeds with the
empty page and the all-zero Metadata (the validated sort value resolves
on the safe-list, as the filter contract guarantees before SQL is built). -/
theorem c8_empty_result (tm : String → String → Bool) (db : MovieDB)
    (t : String) (gs : List String) (f : Filters)
    (hsort : f.sort ∈ f.sortSafelist)
    (hnone : ∀ r ∈ db.rows, movieMatches tm t gs r = false) :
    MovieModel.getAll tm db t gs f = some ([], Metadata.empty) := by
  have hcol : f.sortColumn
      = some (if f.sort.startsWith "-" then f.sort.drop 1 else f.sort) := by
    unfold Filters.sortColumn
    rw [if_pos hsort]
  have hfilter : db.rows.filter (movieMatches tm t gs) = [] := by
    rw [List.filter_eq_nil_iff]
    intro r hr
    rw [hnone r hr]
    simp
  unfold MovieModel.getAll MovieModel.getAllRows
  rw [hcol, hfilter]
  simp [calculateMetadata, Metadata.empty, List.insertionSort]

/-- Witness for C8 on a concrete one-row database and a search term
matching nothing. -/
theorem c8_empty_result_witness :
    MovieModel.getAll (fun _ _ => false) ⟨[⟨1, 0, "A", 2000, 100, ["d"], 1⟩], 2⟩
      "zzz" [] ⟨1, 2, "id", ["id"]⟩ = some ([], Metadata.empty) :=
  c8_empty_result (fun _ _ => false) ⟨[⟨1, 0, "A", 2000, 100, ["d"], 1⟩], 2⟩
    "zzz" [] ⟨1, 2, "id", ["id"]⟩ (by decide) (by decide)

/-- Helper: the column-value order is total. -/
theorem SortKey.le_total' (a b : SortKey) : SortKey.le a b ∨ SortKey.le b a := by
  cases a <;> cases b <;> simp only [SortKey.le] <;>
    first
    | exact le_total _ _
    | exact Or.inl trivial
    | exact Or.inr trivial

/-- Helper: the column-value order is transitive. -/
theorem SortKey.le_trans' {a b c : SortKey}
    (h1 : SortKey.le a b) (h2 : SortKey.le b c) : SortKey.le a c := by
  cases a <;> cases b <;> cases c <;> simp only [SortKey.le] at * <;>
    exact le_trans h1 h2

/-- Helper: the column-value order is antisymmetric. -/
theorem SortKey.le_antisymm' {a b : SortKey}
    (h1 : SortKey.le a b) (h2 : SortKey.le b a) : a = b := by
  cases a <;> cases b <;> simp only [SortKey.le] at * <;>
    first
    | exact congrArg SortKey.int (le_antisymm h1 h2)
    | exact congrArg SortKey.str (le_antisymm h1 h2)

/-- Helper: the row order realised by the ORDER BY clause is total. -/
theorem movieLE_total (col dir : String) (a b : Movie) :
    movieLE col dir a b ∨ movieLE col dir b a := by
  unfold movieLE
  by_cases h : Movie.colKey col a = Movie.colKey col b
  · rw [if_pos h, if_pos h.symm]
    exact Int.le_total a.id b.id
  · rw [if_neg h, if_neg (Ne.symm h)]
    by_cases hd : dir = "DESC"
    · rw [if_pos hd, if_pos hd]
      exact SortKey.le_total' _ _
    · rw [if_neg hd, if_neg hd]
      exact SortKey.le_total' _ _

/-- Helper: the row order realised by the ORDER BY clause is transitive. -/
theorem movieLE_trans (col dir : String) (a b c : Movie)
    (h1 : movieLE col dir a b) (h2 : movieLE col dir b c) :
    movieLE col dir a c := by
  unfold movieLE at *
  by_cases hab : Movie.colKey col a = Movie.colKey col b <;>
    by_cases hbc : Movie.colKey col b = Movie.colKey col c
  · rw [if_pos hab] at h1
    rw [if_pos hbc] at h2
    rw [if_pos (hab.trans hbc)]
    omega
  · rw [if_pos hab] at h1
    rw [if_neg hbc] at h2
    have hac : Movie.colKey col a ≠ Movie.colKey col c := by
      rw [hab]
      exact hbc
    rw [if_neg hac, hab]
    exact h2
  · rw [if_neg hab] at h1
    rw [if_pos hbc] at h2
    have hac : Movie.colKey col a ≠ Movie.colKey col c := by
      rw [← hbc]
      exact hab
    rw [if_neg hac, ← hbc]
    exact h1
  · rw [if_neg hab] at h1
    rw [if_neg hbc] at h2
    by_cases hac : Movie.colKey col a = Movie.colKey col c
    · exfalso
      by_cases hd : dir = "DESC"
      · rw [if_pos hd] at h1 h2
        rw [← hac] at h2
        exact hab (SortKey.le_antisymm' h2 h1)
      · rw [if_neg hd] at h1 h2
        rw [← hac] at h2
        exact hab (SortKey.le_antisymm' h1 h2)
    · rw [if_neg hac]
      by_cases hd : dir = "DESC"
      · rw [if_pos hd] at h1 h2 ⊢
        exact SortKey.le_trans' h2 h1
      · rw [if_neg hd] at h1 h2 ⊢
        exact SortKey.le_trans' h1 h2

/-- Helper: evaluation of GetAll once the sort column resolves. -/
theorem getAll_eval (tm : String → String → Bool) (db : MovieDB)
    (t : String) (gs : List String) (f : Filters) (col : String)
    (hcol : f.sortColumn = some col) :
    MovieModel.getAll tm db t gs f = some (
      ((MovieModel.getAllRows tm db t gs col f.sortDirection).drop
        f.offset.toNat).take f.limit.toNat,
      calculateMetadata
        (if (((MovieModel.getAllRows tm db t gs col f.sortDirection).drop
            f.offset.toNat).take f.limit.toNat).isEmpty then 0
         else ((MovieModel.getAllRows tm db t gs col f.sortDirection).length : Int))
        f.page f.pageSize) := by
  unfold MovieModel.getAll
  rw [hcol]

/-- C3 (amended): over an unmodified dataset and a validated filter, the
ordered result set is sorted by the resolved column and direction with
the id ASC tie-break and is a permutation of the WHERE-matching rows;
pages 1 and 2 of size 2 are disjoint and concatenate, in order, to the
first four entries of that set (hence to the whole set when it has at
most four entries); page 1 reports the total matching count unless the
set is empty, while page 2 reports 0 whenever it is empty (set of one or
two entries) and the total otherwise. -/
theorem c3_pagination (tm : String → String → Bool) (db : MovieDB)
    (t : String) (gs : List String) (s : String) (sl : List String)
    (hs : s ∈ sl) (hnd : (db.rows.map Movie.id).Nodup) :
    let col := if s.startsWith "-" then s.drop 1 else s
    let dir := if s.startsWith "-" then "DESC" else "ASC"
    let full := MovieModel.getAllRows tm db t gs col dir
    List.Sorted (movieLE col dir) full ∧
    full.Perm (db.rows.filter (movieMatches tm t gs)) ∧
    (full.take 2).Disjoint ((full.drop 2).take 2) ∧
    full.take 2 ++ (full.drop 2).take 2 = full.take 4 ∧
    MovieModel.getAll tm db t gs ⟨1, 2, s, sl⟩ = some (full.take 2,
      calculateMetadata (if full.length = 0 then 0 else (full.length : Int)) 1 2) ∧
    MovieModel.getAll tm db t gs ⟨2, 2, s, sl⟩ = some ((full.drop 2).take 2,
      calculateMetadata (if full.length ≤ 2 then 0 else (full.length : Int)) 2 2) := by
  intro col dir full
  haveI : IsTotal Movie (movieLE col dir) := ⟨movieLE_total col dir⟩
  haveI : IsTrans Movie (movieLE col dir) := ⟨movieLE_trans col dir⟩
  have hsorted : List.Sorted (movieLE col dir) full :=
    List.sorted_insertionSort (movieLE col dir)
      (db.rows.filter (movieMatches tm t gs))
  have hperm : full.Perm (db.rows.filter (movieMatches tm t gs)) :=
    List.perm_insertionSort (movieLE col dir)
      (db.rows.filter (movieMatches tm t gs))
  have hfullnd : full.Nodup :=
    hperm.nodup_iff.mpr ((List.Nodup.of_map _ hnd).filter _)
  have hdj : (full.take 2).Disjoint ((full.drop 2).take 2) := by
    intro a ha hb
    exact List.disjoint_take_drop hfullnd (le_refl 2) ha
      (List.take_subset _ _ hb)
  have hcat : full.take 2 ++ (full.drop 2).take 2 = full.take 4 := by
    simpa using (List.take_add full 2 2).symm
  have hcol1 : (⟨1, 2, s, sl⟩ : Filters).sortColumn = some col := by
    unfold Filters.sortColumn
    exact if_pos hs
  have hcol2 : (⟨2, 2, s, sl⟩ : Filters).sortColumn = some col := by
    unfold Filters.sortColumn
    exact if_pos hs
  refine ⟨hsorted, hperm, hdj, hcat, ?_, ?_⟩
  · rw [getAll_eval tm db t gs _ col hcol1]
    have hoff : (⟨1, 2, s, sl⟩ : Filters).offset.toNat = 0 := rfl
    have hlim : (⟨1, 2, s, sl⟩ : Filters).limit.toNat = 2 := rfl
    have hdir : (⟨1, 2, s, sl⟩ : Filters).sortDirection = dir := rfl
    rw [hoff, hlim, hdir, List.drop_zero]
    have hrows : MovieModel.getAllRows tm db t gs col dir = full := rfl
    rw [hrows]
    congr 2
    by_cases hfe : full = []
    · rw [hfe]
      simp
    · have h1 : (full.take 2).isEmpty = false := by
        rw [List.isEmpty_eq_false_iff_exists_mem]
        rcases full with - | ⟨x, xs⟩
        · exact absurd rfl hfe
        · exact ⟨x, by simp⟩
      have h2 : ¬full.length = 0 := by
        simpa using hfe
      rw [h1, if_neg h2]
      simp
  · rw [getAll_eval tm db t gs _ col hcol2]
    have hoff : (⟨2, 2, s, sl⟩ : Filters).offset.toNat = 2 := rfl
    have hlim : (⟨2, 2, s, sl⟩ : Filters).limit.toNat = 2 := rfl
    have hdir : (⟨2, 2, s, sl⟩ : Filters).sortDirection = dir := rfl
    rw [hoff, hlim, hdir]
    have hrows : MovieModel.getAllRows tm db t gs col dir = full := rfl
    rw [hrows]
    congr 2
    by_cases hle2 : full.length ≤ 2
    · have hdropnil : full.drop 2 = [] := List.drop_eq_nil_of_le hle2
      rw [hdropnil, if_pos hle2]
      simp
    · have hdropne : full.drop 2 ≠ [] := by
        rw [Ne, List.drop_eq_nil_iff]
        exact hle2
      have h1 : ((full.drop 2).take 2).isEmpty = false := by
        rw [List.isEmpty_eq_false_iff_exists_mem]
        rcases hd : full.drop 2 with - | ⟨x, xs⟩
        · exact absurd hd hdropne
        · exact ⟨x, by simp⟩
      rw [h1, if_neg hle2]
      simp

/-- Counterexample for C3 as stated: over an unmodified one-record
dataset, page 1 of size 2 reports totalRecords 1 but page 2 of size 2
returns no rows, so its windowed count stays 0 and its metadata reports
totalRecords 0 — the two calls do not report an identical totalRecords. -/
theorem c3_pagination_counterexample :
    (MovieModel.getAll (fun _ _ => false)
        ⟨[⟨1, 0, "A", 2000, 100, ["d"], 1⟩], 2⟩ "" [] ⟨1, 2, "id", ["id"]⟩).map
        (fun p => p.2.totalRecords) = some 1 ∧
    (MovieModel.getAll (fun _ _ => false)
        ⟨[⟨1, 0, "A", 2000, 100, ["d"], 1⟩], 2⟩ "" [] ⟨2, 2, "id", ["id"]⟩).map
        (fun p => p.2.totalRecords) = some 0 ∧
    (MovieModel.getAll (fun _ _ => false)
        ⟨[⟨1, 0, "A", 2000, 100, ["d"], 1⟩], 2⟩ "" [] ⟨1, 2, "id", ["id"]⟩).map
        (fun p => p.2.totalRecords) ≠
      (MovieModel.getAll (fun _ _ => false)
        ⟨[⟨1, 0, "A", 2000, 100, ["d"], 1⟩], 2⟩ "" [] ⟨2, 2, "id", ["id"]⟩).map
        (fun p => p.2.totalRecords) := by
  refine ⟨rfl, rfl, ?_⟩
  intro h
  rw [show (MovieModel.getAll (fun _ _ => false)
      ⟨[⟨1, 0, "A", 2000, 100, ["d"], 1⟩], 2⟩ "" [] ⟨1, 2, "id", ["id"]⟩).map
      (fun p => p.2.totalRecords) = some 1 from rfl,
    show (MovieModel.getAll (fun _ _ => false)
      ⟨[⟨1, 0, "A", 2000, 100, ["d"], 1⟩], 2⟩ "" [] ⟨2, 2, "id", ["id"]⟩).map
      (fun p => p.2.totalRecords) = some 0 from rfl] at h
  simp at h

/-- Witness for C3 (amended) on a concrete three-record dataset sorted
by id. -/
theorem c3_pagination_witness :
    let col := if "id".startsWith "-" then "id".drop 1 else "id"
    let dir := if "id".startsWith "-" then "DESC" else "ASC"
    let full := MovieModel.getAllRows (fun _ _ => false)
      ⟨[⟨1, 0, "A", 2000, 100, ["d"], 1⟩, ⟨2, 0, "B", 2001, 90, ["c"], 1⟩,
        ⟨3, 0, "C", 1999, 80, ["e"], 1⟩], 4⟩ "" [] col dir
    List.Sorted (movieLE col dir) full ∧
    full.Perm (([⟨1, 0, "A", 2000, 100, ["d"], 1⟩, ⟨2, 0, "B", 2001, 90, ["c"], 1⟩,
      ⟨3, 0, "C", 1999, 80, ["e"], 1⟩] : List Movie).filter
        (movieMatches (fun _ _ => false) "" [])) ∧
    (full.take 2).Disjoint ((full.drop 2).take 2) ∧
    full.take 2 ++ (full.drop 2).take 2 = full.take 4 ∧
    MovieModel.getAll (fun _ _ => false)
      ⟨[⟨1, 0, "A", 2000, 100, ["d"], 1⟩, ⟨2, 0, "B", 2001, 90, ["c"], 1⟩,
        ⟨3, 0, "C", 1999, 80, ["e"], 1⟩], 4⟩ "" [] ⟨1, 2, "id", ["id"]⟩
      = some (full.take 2,
        calculateMetadata (if full.length = 0 then 0 else (full.length : Int)) 1 2) ∧
    MovieModel.getAll (fun _ _ => false)
      ⟨[⟨1, 0, "A", 2000, 100, ["d"], 1⟩, ⟨2, 0, "B", 2001, 90, ["c"], 1⟩,
        ⟨3, 0, "C", 1999, 80, ["e"], 1⟩], 4⟩ "" [] ⟨2, 2, "id", ["id"]⟩
      = some ((full.drop 2).take 2,
        calculateMetadata (if full.length ≤ 2 then 0 else (full.length : Int)) 2 2) :=
  c3_pagination (fun _ _ => false)
    ⟨[⟨1, 0, "A", 2000, 100, ["d"], 1⟩, ⟨2, 0, "B", 2001, 90, ["c"], 1⟩,
      ⟨3, 0, "C", 1999, 80, ["e"], 1⟩], 4⟩ "" [] "id" ["id"]
    (by decide) (by decide)
